import Mathlib

/-!
Verification development for the ThamesRiverLevels ingestion pipeline.

Shallow embedding of:
* `scripts/db_updater.py` — SQLite ingestion store (`save_readings`, `prune_old`),
* `scripts/flask_app.py` — station registry, fetch dispatch and the
  normalization pipeline of `get_station_data`, and the `/api/all` aggregate,
* `scripts/db_to_json.py` — per-station snapshot export,
* `scripts/fetch_to_json.py` — the `norm` loop.

Timestamps are modelled as integer epoch seconds, values as rationals
(Python floats on the inputs of interest are exact decimals).  Library
date/number parsing (`datetime.fromisoformat`, `pd.to_datetime`, `dateutil`,
`float`) is modelled by executable parsers over the formats the pipeline
actually exchanges; each such model carries a doc comment saying what it
stands for.
-/

namespace ThamesRiver

/-- Day number (relative to 1970-01-01) of a proleptic-Gregorian civil date,
the arithmetic underlying Python `datetime.timestamp()`. -/
def daysFromCivil (y m d : Int) : Int :=
  let y2 : Int := if m ≤ 2 then y - 1 else y
  let era : Int := (if 0 ≤ y2 then y2 else y2 - 399) / 400
  let yoe : Int := y2 - era * 400
  let mp : Int := (m + 9) % 12
  let doy : Int := (153 * mp + 2) / 5 + d - 1
  let doe : Int := yoe * 365 + yoe / 4 - yoe / 100 + doy
  era * 146097 + doe - 719468

/-- Civil date from a day number, inverse of `daysFromCivil`. -/
def civilFromDays (z0 : Int) : Int × Int × Int :=
  let z := z0 + 719468
  let era : Int := (if 0 ≤ z then z else z - 146096) / 146097
  let doe : Int := z - era * 146097
  let yoe : Int := (doe - doe / 1460 + doe / 36524 - doe / 146096) / 365
  let y : Int := yoe + era * 400
  let doy : Int := doe - (365 * yoe + yoe / 4 - yoe / 100)
  let mp : Int := (5 * doy + 2) / 153
  let d : Int := doy - (153 * mp + 2) / 5 + 1
  let m : Int := if mp < 10 then mp + 3 else mp - 9
  (if m ≤ 2 then y + 1 else y, m, d)

/-- Value of a decimal digit character. -/
def digitVal (c : Char) : Option Int :=
  if c.isDigit then some (Int.ofNat (c.toNat - 48)) else none

/-- Two-digit field. -/
def num2 (a b : Char) : Option Int := do
  let x ← digitVal a
  let y ← digitVal b
  pure (10 * x + y)

/-- Four-digit field. -/
def num4 (a b c d : Char) : Option Int := do
  let x ← num2 a b
  let y ← num2 c d
  pure (100 * x + y)

/-- UTC-offset suffix of an ISO-8601 timestamp, in seconds: empty means naive
(treated as UTC here, offset 0), otherwise `+HH:MM` or `-HH:MM`. -/
def offsetSeconds : List Char → Option Int
  | [] => some 0
  | '+' :: a :: b :: ':' :: c :: d :: [] => do
    let h ← num2 a b
    let m ← num2 c d
    pure (h * 3600 + m * 60)
  | '-' :: a :: b :: ':' :: c :: d :: [] => do
    let h ← num2 a b
    let m ← num2 c d
    pure (-(h * 3600 + m * 60))
  | _ => none

/-- Drop a fractional-seconds field (a dot followed by digits), which
`int(dt.timestamp())` truncates away. -/
def dropFraction : List Char → List Char
  | '.' :: rest => rest.dropWhile (fun c => c.isDigit)
  | cs => cs

/-- Python `s.replace("Z", "+00:00")` at character level (the pattern is a
single character, so per-character replacement is exact). -/
def replaceZ : List Char → List Char
  | [] => []
  | 'Z' :: rest => '+' :: '0' :: '0' :: ':' :: '0' :: '0' :: replaceZ rest
  | c :: rest => c :: replaceZ rest

/-- Modelled from the spec: strict ISO-8601 timestamp parsing to epoch seconds,
standing for Python `datetime.fromisoformat` composed with `.timestamp()`.
Accepts `YYYY-MM-DD{T or space}HH:MM:SS`, an optional fractional-seconds field
(truncated) and an optional `±HH:MM` offset; anything else fails. -/
def fromisoformatEpoch (cs : List Char) : Option Int :=
  match cs with
  | y1 :: y2 :: y3 :: y4 :: '-' :: mo1 :: mo2 :: '-' :: d1 :: d2 :: sep ::
      h1 :: h2 :: ':' :: mi1 :: mi2 :: ':' :: s1 :: s2 :: rest =>
    if sep = 'T' ∨ sep = ' ' then do
      let y ← num4 y1 y2 y3 y4
      let mo ← num2 mo1 mo2
      let d ← num2 d1 d2
      let h ← num2 h1 h2
      let mi ← num2 mi1 mi2
      let ss ← num2 s1 s2
      if 1 ≤ mo ∧ mo ≤ 12 ∧ 1 ≤ d ∧ d ≤ 31 ∧ h ≤ 23 ∧ mi ≤ 59 ∧ ss ≤ 59 then
        let off ← offsetSeconds (dropFraction rest)
        pure (daysFromCivil y mo d * 86400 + h * 3600 + mi * 60 + ss - off)
      else none
    else none
  | _ => none

/-- Exact `iso_to_epoch_seconds` of `db_updater.py`: replace `Z` by `+00:00`,
then strict ISO parse; `none` models the exception that makes `save_readings`
skip the row. -/
def iso_to_epoch_seconds (s : String) : Option Int :=
  fromisoformatEpoch (replaceZ s.data)

/-- Modelled from the spec: `pd.to_datetime(value, utc=True, errors="coerce")`
on one string — the strict ISO-8601 parser of the pipeline; `none` is `NaT`. -/
def pd_to_datetime (s : String) : Option Int :=
  fromisoformatEpoch (replaceZ s.data)

/-- Modelled from the spec: the lenient fallback parser (`dateutil.parser.parse`),
an external library; modelled as accepting the same ISO-8601 forms and failing
on non-date strings such as `"bad"`. -/
def dateutil_parse (s : String) : Option Int :=
  fromisoformatEpoch (replaceZ s.data)

/-- Timestamp parsing of `get_station_data`: strict parse first, then the
lenient fallback for entries that remained `NaT`. -/
def parse_ts_with_fallback (s : String) : Option Int :=
  match pd_to_datetime s with
  | some t => some t
  | none => dateutil_parse s

/-- Two-digit zero padding. -/
def pad2 (n : Int) : String :=
  if n < 10 then "0" ++ toString n else toString n

/-- ISO-8601 rendering of a UTC epoch instant, the shape produced by
`pandas.Timestamp.isoformat()` for a tz-aware UTC timestamp. -/
def isoOfEpoch (t : Int) : String :=
  let days := t / 86400
  let rem := t % 86400
  let ymd := civilFromDays days
  let h := rem / 3600
  let mi := (rem % 3600) / 60
  let ss := rem % 60
  toString ymd.1 ++ "-" ++ pad2 ymd.2.1 ++ "-" ++ pad2 ymd.2.2 ++ "T" ++
    pad2 h ++ ":" ++ pad2 mi ++ ":" ++ pad2 ss ++ "+00:00"

/-- Digits to a natural number; fails on a non-digit or the empty list. -/
def natOfDigits (cs : List Char) : Option Nat :=
  if cs.isEmpty then none
  else cs.foldlM
    (fun acc c => if c.isDigit then some (10 * acc + (c.toNat - 48)) else none) 0

/-- Unsigned decimal literal to a rational. -/
def parseUnsignedDecimal (cs : List Char) : Option ℚ :=
  let ip := cs.takeWhile (fun c => c.isDigit)
  let rest := cs.dropWhile (fun c => c.isDigit)
  match rest with
  | [] =>
    if ip.isEmpty then none
    else (natOfDigits ip).map (fun n => (n : ℚ))
  | '.' :: fp =>
    if fp.all (fun c => c.isDigit) && !(ip.isEmpty && fp.isEmpty) then
      let ni : Nat := (natOfDigits ip).getD 0
      let nf : Nat := (natOfDigits fp).getD 0
      some ((ni : ℚ) + (nf : ℚ) / ((10 : ℚ) ^ fp.length))
    else none
  | _ => none

/-- Modelled from the spec: Python `float(s)` on a string — value coercion to
float64; modelled over plain decimal literals with an optional sign, failing
(raising `ValueError`) on anything else. -/
def pyFloatOfString (s : String) : Option ℚ :=
  match s.data with
  | '-' :: cs => (parseUnsignedDecimal cs).map (fun q => -q)
  | '+' :: cs => parseUnsignedDecimal cs
  | cs => parseUnsignedDecimal cs

/-- A JSON scalar as it reaches the normalizer: the upstream `value` field is
either a JSON string or a JSON number. -/
inductive JVal where
  | jstr (s : String)
  | jnum (q : ℚ)
deriving DecidableEq

/-- Whether the scalar is a string (a Python `str` cell in the DataFrame). -/
def JVal.isStr : JVal → Bool
  | .jstr _ => true
  | .jnum _ => false

/-- Python `float(x)` on a JSON scalar. -/
def pyFloat : JVal → Option ℚ
  | .jnum q => some q
  | .jstr s => pyFloatOfString s

/-- One raw reading as exchanged between adapter and normalizer:
`{"dateTime": ..., "value": ...}`. -/
structure RawItem where
  dateTime : String
  value : JVal
deriving DecidableEq

/-! ## Ingestion store (`scripts/db_updater.py`) -/

/-- One persisted row of the `readings` table. -/
structure StoredRow where
  station_key : String
  station_id : String
  source : String
  ts_utc : Int
  value : ℚ
deriving DecidableEq

/-- The `readings` table as a row list. -/
abbrev Store := List StoredRow

/-- Whether the table already holds the primary key `(station_key, ts_utc)`. -/
def hasKey (db : Store) (k : String) (ts : Int) : Bool :=
  db.any (fun q => q.station_key == k && q.ts_utc == ts)

/-- `INSERT OR IGNORE` of one row under the primary key
`(station_key, ts_utc)`, together with its contribution to `rowcount`
(an ignored duplicate contributes 0). -/
def insertOrIgnore (db : Store) (r : StoredRow) : Store × Nat :=
  if hasKey db r.station_key r.ts_utc then (db, 0) else (db ++ [r], 1)

/-- `executemany` of `INSERT OR IGNORE`: sequential inserts, summed rowcount. -/
def insertMany : Store → List StoredRow → Store × Nat
  | db, [] => (db, 0)
  | db, r :: rest =>
    ((insertMany (insertOrIgnore db r).1 rest).1,
     (insertOrIgnore db r).2 + (insertMany (insertOrIgnore db r).1 rest).2)

/-- Two rows collide on the primary key `(station_key, ts_utc)`. -/
def keyClash (a b : StoredRow) : Prop :=
  a.station_key = b.station_key ∧ a.ts_utc = b.ts_utc

/-- The table invariant enforced by the primary key: at most one row per
`(station_key, ts_utc)`. -/
def KeyUnique (db : Store) : Prop :=
  List.Pairwise (fun a b => ¬ keyClash a b) db

/-- One registry entry of the `STATIONS` dict of `scripts/flask_app.py`. -/
structure Station where
  id : String
  name : String
  source : String
  description : String
  parameter_id : Option Int := none
deriving DecidableEq

/-- Row preparation inside `save_readings`: parse the timestamp and coerce the
value; a failure of either skips the row (the `except: continue`). -/
def parseStoredRow (station_key : String) (meta : Station) (r : RawItem) :
    Option StoredRow :=
  match iso_to_epoch_seconds r.dateTime, pyFloat r.value with
  | some ts, some v => some ⟨station_key, meta.id, meta.source, ts, v⟩
  | _, _ => none

/-- `save_readings` of `db_updater.py`: early-return 0 on an empty batch, else
skip malformed rows and `INSERT OR IGNORE` the rest, returning the new store
and the count of rows actually newly inserted. -/
def save_readings (db : Store) (station_key : String) (meta : Station)
    (readings : List RawItem) : Store × Nat :=
  if readings.isEmpty then (db, 0)
  else insertMany db (readings.filterMap (parseStoredRow station_key meta))

/-- `DELETE FROM readings WHERE ts_utc < cutoff` with its `rowcount`. -/
def delete_old : Store → Int → Store × Nat
  | [], _ => ([], 0)
  | r :: rest, cutoff =>
    if r.ts_utc < cutoff then
      ((delete_old rest cutoff).1, (delete_old rest cutoff).2 + 1)
    else
      (r :: (delete_old rest cutoff).1, (delete_old rest cutoff).2)

/-- `prune_old` of `db_updater.py`: cutoff is now minus the retention window
(`timedelta(days=retention_days)`), rows strictly older are deleted and the
deleted count returned. -/
def prune_old (db : Store) (now_epoch : Int) (retention_days : Int) :
    Store × Nat :=
  delete_old db (now_epoch - 86400 * retention_days)

/-! ## Fetch layer and normalization (`scripts/flask_app.py`) -/

/-- Behaviour of one outbound fetch: either a 2xx body already translated to
an items list, or a failure (network error, timeout, non-2xx — the exception
paths inside the adapter). -/
inductive FetchOutcome where
  | ok (items : List RawItem)
  | fail (msg : String)
deriving DecidableEq

/-- `fetch_station_data` (EA adapter wrapper): any exception is caught, logged
and turned into an empty `{"items": []}` body. -/
def fetch_station_data (o : FetchOutcome) : List RawItem :=
  match o with
  | .ok items => items
  | .fail _ => []

/-- `fetch_historical_data` (NRW adapter, `nrw_api.py`): no exception handling
around `urlopen`, so a failure propagates to the caller. -/
def fetch_historical_data (o : FetchOutcome) : Except String (List RawItem) :=
  match o with
  | .ok items => .ok items
  | .fail msg => .error msg

/-- The stats block of `get_station_data`. -/
structure Stats where
  min : ℚ
  max : ℚ
  mean : ℚ
  count : Nat
deriving DecidableEq

/-- The per-station response dict: absent keys are `none`. -/
structure StationResult where
  station : Option Station
  readings : List (String × ℚ)
  stats : Option Stats
  error : Option String
deriving DecidableEq

/-- The error-shaped response `{"station": st, "readings": [], "error": msg}`. -/
def errResult (st : Station) (msg : String) : StationResult :=
  ⟨some st, [], none, some msg⟩

/-- Sort key order used by `df.sort_values("dateTime")` on the parsed column:
`NaT` (i.e. `none`) sorts after every timestamp (`na_position="last"`). -/
def tsLe : Option Int → Option Int → Bool
  | some x, some y => decide (x ≤ y)
  | some _, none => true
  | none, some _ => false
  | none, none => true

/-- The sort relation on parsed rows. -/
def tsRel (a b : Option Int × JVal) : Prop := tsLe a.1 b.1 = true

instance : DecidableRel tsRel := fun a b => instDecidableEqBool (tsLe a.1 b.1) true

theorem tsLe_total (a b : Option Int) : tsLe a b = true ∨ tsLe b a = true := by
  cases a <;> cases b <;> simp [tsLe]
  exact Int.le_total _ _

theorem tsLe_trans {a b c : Option Int} (h1 : tsLe a b = true)
    (h2 : tsLe b c = true) : tsLe a c = true := by
  cases a <;> cases b <;> cases c <;> simp_all [tsLe]
  omega

instance : IsTotal (Option Int × JVal) tsRel :=
  ⟨fun a b => tsLe_total a.1 b.1⟩

instance : IsTrans (Option Int × JVal) tsRel :=
  ⟨fun _ _ _ h1 h2 => tsLe_trans h1 h2⟩

/-- The normalization core of `get_station_data`: parse every `dateTime` with
the strict-then-lenient chain (rows that fail both keep `NaT`; nothing is
dropped), then sort by the parsed column with `NaT` last. -/
def normalize_readings (readings : List RawItem) : List (Option Int × JVal) :=
  List.insertionSort tsRel
    (readings.map (fun r => (parse_ts_with_fallback r.dateTime, r.value)))

/-- Rendering of the parsed timestamp column cell:
`pd.NaT.isoformat()` is the literal string `"NaT"`. -/
def isoOrNaT : Option Int → String
  | some t => isoOfEpoch t
  | none => "NaT"

/-- One entry of the output readings list:
`{"dateTime": row.isoformat(), "value": float(row["value"])}`; `none` models
the `ValueError` that `float` raises on a non-numeric cell. -/
def emitRow (p : Option Int × JVal) : Option (String × ℚ) :=
  (pyFloat p.2).map (fun q => (isoOrNaT p.1, q))

/-- The output readings comprehension over the sorted DataFrame; it aborts the
whole response on the first non-convertible value. -/
def emitAll (l : List (Option Int × JVal)) : Option (List (String × ℚ)) :=
  l.mapM emitRow

/-- Fold helpers for the stats block. -/
def qListMin : List ℚ → ℚ
  | [] => 0
  | x :: xs => xs.foldl min x

/-- Maximum of a value list. -/
def qListMax : List ℚ → ℚ
  | [] => 0
  | x :: xs => xs.foldl max x

/-- Sum of a value list. -/
def qListSum (l : List ℚ) : ℚ := l.foldl (fun a b => a + b) 0

/-- Modelled from the spec plus pandas semantics: the stats block
`min/max/mean/count` over `df["value"]`.  When the column contains any Python
string the column has object dtype and pandas raises a `TypeError` (in
`.mean()` for an all-string column, already in `.min()` for a mixed one)
— either way the whole request falls into the error branch, modelled as
`none`.  On an all-numeric column the usual numeric statistics result. -/
def colStats (vs : List JVal) : Option Stats :=
  if vs.any JVal.isStr then none
  else
    let nums := vs.filterMap pyFloat
    some ⟨qListMin nums, qListMax nums, qListSum nums / (vs.length : ℚ), vs.length⟩

/-- Error text standing for the `TypeError` raised by pandas when computing
statistics over a string-bearing column, as rendered by `str(e)`. -/
def meanTypeErrorMsg : String := "could not convert string to numeric"

/-- Error text standing for the `ValueError` raised by `float` on a
non-numeric reading value, as rendered by `str(e)`. -/
def floatTypeErrorMsg : String := "could not convert string to float"

/-- Error text standing for the `UnboundLocalError` raised when no fetch
branch assigned `readings`, as rendered by `str(e)`. -/
def unboundReadingsMsg : String :=
  "local variable readings referenced before assignment"

/-- Body of `get_station_data` after the adapter returned an items list:
the empty check, the parse/sort normalization, the output comprehension and
the stats block, with every exception caught into the error result. -/
def build_result (station : Station) (readings : List RawItem) : StationResult :=
  if readings.isEmpty then errResult station "No data available"
  else
    let sorted := normalize_readings readings
    match emitAll sorted with
    | none => errResult station floatTypeErrorMsg
    | some out =>
      match colStats (sorted.map (fun p => p.2)) with
      | none => errResult station meanTypeErrorMsg
      | some st => ⟨some station, out, some st, none⟩

/-- The station registry: the `STATIONS` dict as an association list. -/
abbrev Registry := List (String × Station)

/-- `get_station_data` of `scripts/flask_app.py`.  The adapter environment
`env` gives each station key the behaviour of its outbound fetch this cycle.
Unknown key: the bare `{"error": "Station not found"}` dict.  EA source: the
swallowing wrapper `fetch_station_data`.  NRW source: `fetch_historical_data`,
whose exception is caught by the surrounding `try` into the error result.
Any other source: no branch assigns `readings`, so the `if not readings:`
test raises `UnboundLocalError`, caught into the error result. -/
def get_station_data (registry : Registry) (env : String → FetchOutcome)
    (station_key : String) : StationResult :=
  match List.lookup station_key registry with
  | none => ⟨none, [], none, some "Station not found"⟩
  | some station =>
    if station.source = "EA" then
      build_result station (fetch_station_data (env station_key))
    else if station.source = "NRW" then
      match fetch_historical_data (env station_key) with
      | .error e => errResult station e
      | .ok items => build_result station items
    else
      errResult station unboundReadingsMsg

/-- The `/api/all` aggregate: one `get_station_data` call per registry key. -/
def api_all (registry : Registry) (env : String → FetchOutcome) :
    List (String × StationResult) :=
  registry.map (fun p => (p.1, get_station_data registry env p.1))

/-- Ascending-timestamp order on exported pairs. -/
def relZ (a b : Int × ℚ) : Prop := a.1 ≤ b.1

instance : DecidableRel relZ := fun a b => Int.decLe a.1 b.1

instance : IsTotal (Int × ℚ) relZ := ⟨fun a b => Int.le_total a.1 b.1⟩

instance : IsTrans (Int × ℚ) relZ := ⟨fun _ _ _ h1 h2 => le_trans h1 h2⟩

/-- The `norm` loop of `scripts/fetch_to_json.py` on the readings of a station
response (whose values are already floats): parse each `dateTime` with
`pd.to_datetime(..., errors="coerce")`, skip `NaT` rows, then sort by
`ts_utc`. -/
def fetch_norm (rows : List (String × ℚ)) : List (Int × ℚ) :=
  List.insertionSort relZ
    (rows.filterMap (fun r => (pd_to_datetime r.1).map (fun t => (t, r.2))))

/-! ## Snapshot export (`scripts/db_to_json.py`) -/

/-- `SELECT DISTINCT station_key FROM readings` (the sort order of the SQL
`ORDER BY station_key` is irrelevant to the claims). -/
def list_station_keys (db : Store) : List String :=
  (db.map (fun r => r.station_key)).dedup

/-- `SELECT ts_utc, value FROM readings WHERE station_key = ? ORDER BY ts_utc
ASC`. -/
def query_station_rows (db : Store) (k : String) : List (Int × ℚ) :=
  List.insertionSort relZ
    ((db.filter (fun r => r.station_key == k)).map (fun r => (r.ts_utc, r.value)))

/-- One exported per-station JSON snapshot. -/
structure Snapshot where
  station_key : String
  station_name : String
  source : String
  generated_at : String
  data : List (Int × ℚ)
deriving DecidableEq

/-- `export_station_to_json`: a store key absent from `STATIONS` is skipped
with a warning, an empty row set is skipped, otherwise one snapshot is
written. -/
def export_station_to_json (registry : Registry) (db : Store)
    (generated_at : String) (k : String) : Option Snapshot :=
  match List.lookup k registry with
  | none => none
  | some meta =>
    if (query_station_rows db k).isEmpty then none
    else some ⟨k, meta.name, meta.source, generated_at, query_station_rows db k⟩

/-- `export_all_stations`: every distinct store key is offered to
`export_station_to_json`; skipped keys produce no file. -/
def export_all_stations (registry : Registry) (db : Store)
    (generated_at : String) : List Snapshot :=
  (list_station_keys db).filterMap (export_station_to_json registry db generated_at)

/-! ## The concrete `STATIONS` registry of `scripts/flask_app.py` -/

/-- Chester (EA). -/
def chesterStation : Station :=
  ⟨"067033_TG_148", "Chester", "EA", "Environment Agency monitoring station", none⟩

/-- Liverpool (EA). -/
def liverpoolStation : Station :=
  ⟨"E70124", "Liverpool", "EA", "Environment Agency monitoring station", none⟩

/-- Ironbridge (NRW). -/
def ironbridgeStation : Station :=
  ⟨"4173", "Ironbridge", "NRW", "Natural Resources Wales monitoring station", some 41⟩

/-- Farndon (NRW). -/
def farndonStation : Station :=
  ⟨"4170", "Farndon", "NRW", "Natural Resources Wales monitoring station", some 40⟩

/-- Queens Park (EA). -/
def queensParkStation : Station :=
  ⟨"SJ46_109", "Queens Park ground water level", "EA",
    "Environment Agency monitoring station", none⟩

/-- The `STATIONS` dict. -/
def STATIONS : Registry :=
  [("chester", chesterStation), ("liverpool", liverpoolStation),
   ("ironbridge", ironbridgeStation), ("farndon", farndonStation),
   ("queens_park", queensParkStation)]

/-! ## Store lemmas -/

theorem hasKey_append (db : Store) (r : StoredRow) (k : String) (ts : Int) :
    hasKey (db ++ [r]) k ts
      = (hasKey db k ts || (r.station_key == k && r.ts_utc == ts)) := by
  simp [hasKey, List.any_append]

theorem hasKey_eq_true_iff {db : Store} {k : String} {ts : Int} :
    hasKey db k ts = true ↔ ∃ q ∈ db, q.station_key = k ∧ q.ts_utc = ts := by
  simp [hasKey, List.any_eq_true]

theorem insertOrIgnore_fst_mono {db : Store} {k : String} {ts : Int}
    (r : StoredRow) (h : hasKey db k ts = true) :
    hasKey (insertOrIgnore db r).1 k ts = true := by
  unfold insertOrIgnore
  split
  · exact h
  · simp [hasKey_append, h]

theorem insertOrIgnore_self (db : Store) (r : StoredRow) :
    hasKey (insertOrIgnore db r).1 r.station_key r.ts_utc = true := by
  unfold insertOrIgnore
  split
  · assumption
  · simp [hasKey_append]

theorem insertOrIgnore_of_hasKey {db : Store} {r : StoredRow}
    (h : hasKey db r.station_key r.ts_utc = true) :
    insertOrIgnore db r = (db, 0) := by
  simp [insertOrIgnore, h]

theorem insertMany_fst_mono {k : String} {ts : Int} :
    ∀ (rows : List StoredRow) (db : Store), hasKey db k ts = true →
      hasKey (insertMany db rows).1 k ts = true
  | [], _, h => h
  | r :: rest, db, h => by
    simp only [insertMany]
    exact insertMany_fst_mono rest _ (insertOrIgnore_fst_mono r h)

theorem insertMany_hasKey_of_mem :
    ∀ (rows : List StoredRow) (db : Store) (r : StoredRow), r ∈ rows →
      hasKey (insertMany db rows).1 r.station_key r.ts_utc = true
  | [], _, _, h => absurd h (List.not_mem_nil _)
  | x :: rest, db, r, h => by
    simp only [insertMany]
    rcases List.mem_cons.mp h with h1 | h2
    · subst h1
      exact insertMany_fst_mono rest _ (insertOrIgnore_self db r)
    · exact insertMany_hasKey_of_mem rest _ r h2

theorem insertMany_of_all_present :
    ∀ (rows : List StoredRow) (db : Store),
      (∀ r ∈ rows, hasKey db r.station_key r.ts_utc = true) →
      insertMany db rows = (db, 0)
  | [], _, _ => rfl
  | r :: rest, db, h => by
    simp only [insertMany]
    rw [insertOrIgnore_of_hasKey (h r (List.mem_cons_self r rest))]
    rw [insertMany_of_all_present rest db
      (fun q hq => h q (List.mem_cons_of_mem r hq))]
    rfl

/-- C1.  `save_readings` is idempotent: re-running it on the store it just
produced, with the identical reading list, leaves the store unchanged and
reports zero newly inserted rows. -/
theorem save_readings_idempotent (db : Store) (k : String) (meta : Station)
    (readings : List RawItem) :
    save_readings (save_readings db k meta readings).1 k meta readings
      = ((save_readings db k meta readings).1, 0) := by
  unfold save_readings
  by_cases he : readings.isEmpty = true
  · simp [he]
  · simp only [he, if_neg, Bool.false_eq_true, not_false_eq_true]
    exact insertMany_of_all_present _ _
      (fun r hr => insertMany_hasKey_of_mem _ db r hr)

theorem delete_old_fst (c : Int) :
    ∀ db : Store,
      (delete_old db c).1 = db.filter (fun r => !decide (r.ts_utc < c))
  | [] => rfl
  | r :: rest => by
    by_cases h : r.ts_utc < c <;>
      simp [delete_old, h, delete_old_fst c rest, List.filter_cons]

theorem delete_old_length (c : Int) :
    ∀ db : Store, (delete_old db c).1.length + (delete_old db c).2 = db.length
  | [] => rfl
  | r :: rest => by
    have ih := delete_old_length c rest
    by_cases h : r.ts_utc < c <;> simp [delete_old, h] <;> omega

/-- C2.  After `prune_old` no stored row strictly older than now minus the
retention window remains, every row at or after that cutoff survives
unchanged (the kept rows are a sublist of the original table), and the kept
and deleted counts partition the table. -/
theorem prune_old_retention (db : Store) (now_epoch retention_days : Int) :
    (∀ r ∈ (prune_old db now_epoch retention_days).1,
        ¬ r.ts_utc < now_epoch - 86400 * retention_days) ∧
    (∀ r ∈ db, ¬ r.ts_utc < now_epoch - 86400 * retention_days →
        r ∈ (prune_old db now_epoch retention_days).1) ∧
    List.Sublist (prune_old db now_epoch retention_days).1 db ∧
    (prune_old db now_epoch retention_days).1.length
        + (prune_old db now_epoch retention_days).2 = db.length := by
  have h1 := delete_old_fst (now_epoch - 86400 * retention_days) db
  have h2 := delete_old_length (now_epoch - 86400 * retention_days) db
  unfold prune_old
  refine ⟨?_, ?_, ?_, h2⟩
  · intro r hr
    rw [h1] at hr
    have := (List.mem_filter.mp hr).2
    simpa using this
  · intro r hr hnew
    rw [h1]
    exact List.mem_filter.mpr ⟨hr, by simpa using hnew⟩
  · rw [h1]
    exact List.filter_sublist db

theorem mem_insertOrIgnore {r0 : StoredRow} {db : Store} (r : StoredRow)
    (h : r0 ∈ db) : r0 ∈ (insertOrIgnore db r).1 := by
  unfold insertOrIgnore
  split
  · exact h
  · exact List.mem_append_left _ h

theorem mem_insertMany {r0 : StoredRow} :
    ∀ (rows : List StoredRow) (db : Store), r0 ∈ db →
      r0 ∈ (insertMany db rows).1
  | [], _, h => h
  | r :: rest, db, h => by
    simp only [insertMany]
    exact mem_insertMany rest _ (mem_insertOrIgnore r h)

theorem keyUnique_insertOrIgnore {db : Store} (r : StoredRow)
    (hu : KeyUnique db) : KeyUnique (insertOrIgnore db r).1 := by
  unfold KeyUnique at hu ⊢
  unfold insertOrIgnore
  split
  · exact hu
  next h =>
    refine List.pairwise_append.mpr ⟨hu, List.pairwise_singleton _ _, ?_⟩
    intro a ha b hb
    simp only [List.mem_singleton] at hb
    subst hb
    intro hc
    exact h (hasKey_eq_true_iff.mpr ⟨a, ha, hc.1, hc.2⟩)

theorem keyUnique_insertMany :
    ∀ (rows : List StoredRow) (db : Store), KeyUnique db →
      KeyUnique (insertMany db rows).1
  | [], _, hu => hu
  | r :: rest, db, hu => by
    simp only [insertMany]
    exact keyUnique_insertMany rest _ (keyUnique_insertOrIgnore r hu)

theorem keyClash_symm : Symmetric (fun a b : StoredRow => ¬ keyClash a b) := by
  intro a b h hc
  exact h ⟨hc.1.symm, hc.2.symm⟩

/-- C7.  First-write-wins under the primary key: a row already stored survives
any later `save_readings` batch, key uniqueness is preserved, and every row of
the new store that has the old row's `(station_key, ts_utc)` is that old row —
so a later upsert of a different value for the same key leaves the stored
value unchanged and the store holds at most one value per key. -/
theorem save_readings_first_write_wins (db : Store) (k : String)
    (meta : Station) (readings : List RawItem) (r0 : StoredRow)
    (hu : KeyUnique db) (h0 : r0 ∈ db) :
    r0 ∈ (save_readings db k meta readings).1 ∧
    KeyUnique (save_readings db k meta readings).1 ∧
    ∀ q ∈ (save_readings db k meta readings).1,
      q.station_key = r0.station_key → q.ts_utc = r0.ts_utc → q = r0 := by
  have hmem : r0 ∈ (save_readings db k meta readings).1 := by
    unfold save_readings
    split
    · exact h0
    · exact mem_insertMany _ db h0
  have huniq : KeyUnique (save_readings db k meta readings).1 := by
    unfold save_readings
    split
    · exact hu
    · exact keyUnique_insertMany _ db hu
  refine ⟨hmem, huniq, ?_⟩
  intro q hq e1 e2
  by_contra hne
  exact (List.Pairwise.forall keyClash_symm huniq) hq hmem hne ⟨e1, e2⟩

/-- Witness for C7 at a concrete store and batch: the store holds
`("chester", 1717200000) ↦ 6/5` and the batch re-offers the same timestamp
with value `2`. -/
theorem save_readings_first_write_wins_witness :
    (⟨"chester", "067033_TG_148", "EA", 1717200000, 6/5⟩ : StoredRow)
        ∈ (save_readings [⟨"chester", "067033_TG_148", "EA", 1717200000, 6/5⟩]
            "chester" chesterStation [⟨"2024-06-01T00:00:00Z", .jnum 2⟩]).1 ∧
    KeyUnique (save_readings [⟨"chester", "067033_TG_148", "EA", 1717200000, 6/5⟩]
        "chester" chesterStation [⟨"2024-06-01T00:00:00Z", .jnum 2⟩]).1 ∧
    ∀ q ∈ (save_readings [⟨"chester", "067033_TG_148", "EA", 1717200000, 6/5⟩]
        "chester" chesterStation [⟨"2024-06-01T00:00:00Z", .jnum 2⟩]).1,
      q.station_key = "chester" → q.ts_utc = 1717200000 →
        q = ⟨"chester", "067033_TG_148", "EA", 1717200000, 6/5⟩ :=
  save_readings_first_write_wins _ "chester" chesterStation _ _
    (List.pairwise_singleton _ _) (List.mem_singleton_self _)

/-! ## Normalization ordering (C5) -/

/-- C5.  Whatever the input order, the normalized sequences are sorted by
non-decreasing timestamp: the `get_station_data` pipeline sorts its parsed
rows under the key order `tsLe` (timestamps ascending, `NaT` last), and the
`fetch_to_json` norm loop sorts its surviving `(ts_utc, value)` pairs by
ascending `ts_utc`. -/
theorem normalized_output_sorted (readings : List RawItem)
    (rows : List (String × ℚ)) :
    List.Sorted tsRel (normalize_readings readings) ∧
    List.Sorted relZ (fetch_norm rows) :=
  ⟨List.sorted_insertionSort tsRel _, List.sorted_insertionSort relZ _⟩

/-! ## Isolation of station results (C8) -/

theorem get_station_data_env_congr (registry : Registry)
    (env1 env2 : String → FetchOutcome) (k : String) (h : env1 k = env2 k) :
    get_station_data registry env1 k = get_station_data registry env2 k := by
  unfold get_station_data
  rw [h]

theorem lookup_api_all_congr (registry : Registry)
    (env1 env2 : String → FetchOutcome) (k : String) (h : env1 k = env2 k) :
    ∀ l : Registry,
      List.lookup k (l.map (fun p => (p.1, get_station_data registry env1 p.1)))
        = List.lookup k (l.map (fun p => (p.1, get_station_data registry env2 p.1)))
  | [] => rfl
  | p :: rest => by
    simp only [List.map_cons, List.lookup]
    by_cases hk : k == p.1
    · have hk2 : p.1 = k := (beq_iff_eq.mp hk).symm
      subst hk2
      simp only [beq_self_eq_true]
      rw [get_station_data_env_congr registry env1 env2 p.1 h]
    · simp only [hk]
      exact lookup_api_all_congr registry env1 env2 k h rest

/-- C8.  Noninterference in the `/api/all` aggregate: the result recorded for
a station key depends only on that station's own adapter behaviour, so two
adapter environments that agree at `k` — however the other stations' adapters
succeed, fail or raise — give `k` the identical result, and no station's
failure can abort the aggregate (which is total by construction). -/
theorem api_all_isolation (registry : Registry)
    (env1 env2 : String → FetchOutcome) (k : String) (h : env1 k = env2 k) :
    List.lookup k (api_all registry env1) = List.lookup k (api_all registry env2) :=
  lookup_api_all_congr registry env1 env2 k h registry

/-- Witness for C8: against the real `STATIONS` registry, an environment where
every adapter fails and one where only the Ironbridge adapter behaves
differently agree at Chester, so Chester's aggregate entry is identical. -/
theorem api_all_isolation_witness :
    List.lookup "chester" (api_all STATIONS (fun _ => FetchOutcome.fail "boom"))
      = List.lookup "chester" (api_all STATIONS (fun key =>
          if key == "ironbridge" then
            FetchOutcome.ok [⟨"2024-06-01T00:00:00Z", JVal.jnum 1⟩]
          else FetchOutcome.fail "boom")) :=
  api_all_isolation STATIONS _ _ "chester" (by decide)

/-! ## Unregistered-source stations (C10) -/

/-- C10.  A registered station whose source is neither `"EA"` nor `"NRW"`
always yields the error result: no fetch branch assigns `readings`, the
resulting `UnboundLocalError` is caught, and the response has empty readings,
no stats and a non-empty error string — never a data-bearing result. -/
theorem unknown_source_error_result (registry : Registry)
    (env : String → FetchOutcome) (k : String) (st : Station)
    (hl : List.lookup k registry = some st)
    (h1 : st.source ≠ "EA") (h2 : st.source ≠ "NRW") :
    get_station_data registry env k = errResult st unboundReadingsMsg ∧
    (get_station_data registry env k).readings = [] ∧
    (get_station_data registry env k).stats = none ∧
    (get_station_data registry env k).error = some unboundReadingsMsg ∧
    unboundReadingsMsg ≠ "" := by
  have hres : get_station_data registry env k = errResult st unboundReadingsMsg := by
    unfold get_station_data
    rw [hl]
    simp [h1, h2]
  refine ⟨hres, ?_, ?_, ?_, by decide⟩ <;> rw [hres] <;> rfl

/-- Witness for C10 at the Shoothill-sourced Ironbridge entry of the earlier
registry revision. -/
theorem unknown_source_error_result_witness :
    get_station_data
        [("ironbridge", ⟨"968", "Ironbridge", "Shoothill",
            "Shoothill monitoring station", none⟩)]
        (fun _ => FetchOutcome.ok []) "ironbridge"
      = errResult ⟨"968", "Ironbridge", "Shoothill",
          "Shoothill monitoring station", none⟩ unboundReadingsMsg ∧
    (get_station_data
        [("ironbridge", ⟨"968", "Ironbridge", "Shoothill",
            "Shoothill monitoring station", none⟩)]
        (fun _ => FetchOutcome.ok []) "ironbridge").readings = [] ∧
    (get_station_data
        [("ironbridge", ⟨"968", "Ironbridge", "Shoothill",
            "Shoothill monitoring station", none⟩)]
        (fun _ => FetchOutcome.ok []) "ironbridge").stats = none ∧
    (get_station_data
        [("ironbridge", ⟨"968", "Ironbridge", "Shoothill",
            "Shoothill monitoring station", none⟩)]
        (fun _ => FetchOutcome.ok []) "ironbridge").error
      = some unboundReadingsMsg ∧
    unboundReadingsMsg ≠ "" :=
  unknown_source_error_result _ _ "ironbridge" _ rfl (by decide) (by decide)

/-! ## Fetch-failure reporting (C6) -/

/-- Counterexample to C6: for the EA-sourced Chester station, a failing fetch
(`fetch_station_data` catches the exception and returns an empty items list)
produces exactly the `"No data available"` result — the fetch failure is not
distinguishable from a valid empty response. -/
theorem ea_fetch_failure_reported_as_no_data :
    (fun _ : String => FetchOutcome.fail "Connection timed out") "chester"
        = FetchOutcome.fail "Connection timed out" ∧
    get_station_data STATIONS
        (fun _ => FetchOutcome.fail "Connection timed out") "chester"
      = errResult chesterStation "No data available" :=
  ⟨rfl, by decide⟩

/-- C6 amended.  Fetch-failure reporting split by source: for NRW stations the
adapter raises and the per-station result carries the failure description
(distinct from `"No data available"`, which an empty NRW response yields);
for EA stations `fetch_station_data` swallows the failure into an empty items
list, so a failing fetch and a valid empty response both yield the
`"No data available"` result. -/
theorem fetch_failure_reporting (registry : Registry)
    (env : String → FetchOutcome) (k msg : String) (st : Station)
    (hl : List.lookup k registry = some st) :
    (st.source = "NRW" → env k = FetchOutcome.fail msg →
        get_station_data registry env k = errResult st msg) ∧
    (st.source = "NRW" → env k = FetchOutcome.ok [] →
        get_station_data registry env k = errResult st "No data available") ∧
    (st.source = "EA" → env k = FetchOutcome.fail msg →
        get_station_data registry env k = errResult st "No data available") ∧
    (st.source = "EA" → env k = FetchOutcome.ok [] →
        get_station_data registry env k = errResult st "No data available") := by
  refine ⟨?_, ?_, ?_, ?_⟩ <;> intro hs he <;>
    unfold get_station_data <;> rw [hl] <;>
    simp [hs, he, fetch_historical_data, fetch_station_data, build_result]

/-- Witness for C6 (amended) at the NRW-sourced Farndon station with a
timed-out fetch. -/
theorem fetch_failure_reporting_witness :
    (farndonStation.source = "NRW" →
        (fun _ : String => FetchOutcome.fail "timed out") "farndon"
            = FetchOutcome.fail "timed out" →
        get_station_data STATIONS (fun _ => FetchOutcome.fail "timed out")
            "farndon" = errResult farndonStation "timed out") ∧
    (farndonStation.source = "NRW" →
        (fun _ : String => FetchOutcome.fail "timed out") "farndon"
            = FetchOutcome.ok [] →
        get_station_data STATIONS (fun _ => FetchOutcome.fail "timed out")
            "farndon" = errResult farndonStation "No data available") ∧
    (farndonStation.source = "EA" →
        (fun _ : String => FetchOutcome.fail "timed out") "farndon"
            = FetchOutcome.fail "timed out" →
        get_station_data STATIONS (fun _ => FetchOutcome.fail "timed out")
            "farndon" = errResult farndonStation "No data available") ∧
    (farndonStation.source = "EA" →
        (fun _ : String => FetchOutcome.fail "timed out") "farndon"
            = FetchOutcome.ok [] →
        get_station_data STATIONS (fun _ => FetchOutcome.fail "timed out")
            "farndon" = errResult farndonStation "No data available") :=
  fetch_failure_reporting STATIONS (fun _ => FetchOutcome.fail "timed out")
    "farndon" "timed out" farndonStation rfl

/-! ## Malformed-row handling in `get_station_data` (C3, C4) -/

/-- C3 (evaluated at the failing inputs).  The normalization of
`get_station_data` does not drop malformed rows: a batch containing a
non-numeric value collapses wholesale into an error result (the `float`
call in the output comprehension raises), and a batch whose only defect is
an unparseable timestamp keeps that row, emitting it with the literal
timestamp string `"NaT"` (here with value 2 sorted after the valid rows). -/
theorem malformed_rows_mishandled :
    build_result chesterStation
        [⟨"2024-06-01T00:00:00Z", JVal.jnum 1⟩,
         ⟨"bad", JVal.jnum 2⟩,
         ⟨"2024-06-01T00:15:00Z", JVal.jstr "abc"⟩]
      = errResult chesterStation floatTypeErrorMsg ∧
    (build_result chesterStation
        [⟨"2024-06-01T00:00:00Z", JVal.jnum 1⟩,
         ⟨"bad", JVal.jnum 2⟩,
         ⟨"2024-06-01T00:15:00Z", JVal.jnum 3⟩]).readings
      = [("2024-06-01T00:00:00+00:00", 1),
         ("2024-06-01T00:15:00+00:00", 3), ("NaT", 2)] :=
  ⟨by decide, by decide⟩

/-- C4 (evaluated at the spec's scenario batch).  On the adapter output
`[{dateTime: 2024-06-01T00:00:00Z, value: "1.2"}, {dateTime: "bad",
value: "2.0"}, {dateTime: 2024-06-01T00:15:00Z, value: "1.5"}]` the code does
not return the two valid readings with their stats: the string-valued column
has object dtype, the stats computation raises, and the whole response is the
error result. -/
theorem scenario_batch_collapses_to_error :
    build_result chesterStation
        [⟨"2024-06-01T00:00:00Z", JVal.jstr "1.2"⟩,
         ⟨"bad", JVal.jstr "2.0"⟩,
         ⟨"2024-06-01T00:15:00Z", JVal.jstr "1.5"⟩]
      = errResult chesterStation meanTypeErrorMsg := by decide

/-! ## Snapshot export (C9) -/

theorem mem_list_station_keys {db : Store} {k : String} :
    k ∈ list_station_keys db ↔ ∃ r ∈ db, r.station_key = k := by
  simp [list_station_keys, List.mem_dedup]

theorem query_station_rows_ne_nil {db : Store} {k : String}
    (h : ∃ r ∈ db, r.station_key = k) : query_station_rows db k ≠ [] := by
  obtain ⟨r, hr, hk⟩ := h
  unfold query_station_rows
  intro hnil
  have hm : (r.ts_utc, r.value) ∈ List.insertionSort relZ
      ((db.filter (fun q => q.station_key == k)).map
        (fun q => (q.ts_utc, q.value))) := by
    rw [List.mem_insertionSort]
    exact List.mem_map_of_mem _ (List.mem_filter.mpr ⟨hr, by simp [hk]⟩)
  rw [hnil] at hm
  exact List.not_mem_nil _ hm

theorem export_station_key {registry : Registry} {db : Store} {g k : String}
    {s : Snapshot} (h : export_station_to_json registry db g k = some s) :
    s.station_key = k := by
  unfold export_station_to_json at h
  split at h
  · cases h
  · split at h
    · cases h
    · cases h
      rfl

theorem export_filter_not_mem (registry : Registry) (db : Store)
    (g k : String) :
    ∀ l : List String, k ∉ l →
      (l.filterMap (export_station_to_json registry db g)).filter
        (fun s => s.station_key == k) = []
  | [], _ => rfl
  | a :: rest, h => by
    have hka : k ≠ a := fun e => h (e ▸ List.mem_cons_self a rest)
    have hrest := export_filter_not_mem registry db g k rest
      (fun hm => h (List.mem_cons_of_mem a hm))
    cases he : export_station_to_json registry db g a with
    | none => simp [List.filterMap_cons, he, hrest]
    | some s =>
      have hs : s.station_key = a := export_station_key he
      simp [List.filterMap_cons, he, List.filter_cons, hs, Ne.symm hka, hrest]

theorem export_filter_eq (registry : Registry) (db : Store) (g k : String)
    (meta : Station) (hl : List.lookup k registry = some meta)
    (hne : query_station_rows db k ≠ []) :
    ∀ l : List String, l.Nodup → k ∈ l →
      (l.filterMap (export_station_to_json registry db g)).filter
          (fun s => s.station_key == k)
        = [⟨k, meta.name, meta.source, g, query_station_rows db k⟩]
  | [], _, hm => absurd hm (List.not_mem_nil k)
  | a :: rest, hnd, hm => by
    rcases List.mem_cons.mp hm with rfl | hmr
    · have hk : export_station_to_json registry db g k
          = some ⟨k, meta.name, meta.source, g, query_station_rows db k⟩ := by
        simp only [export_station_to_json, hl]
        rw [if_neg (by simpa [List.isEmpty_iff] using hne)]
      have hnotin : k ∉ rest := (List.nodup_cons.mp hnd).1
      simp [List.filterMap_cons, hk, List.filter_cons,
        export_filter_not_mem registry db g k rest hnotin]
    · have hnd2 := (List.nodup_cons.mp hnd).2
      have hak : a ≠ k := fun e => (List.nodup_cons.mp hnd).1 (e ▸ hmr)
      have ih := export_filter_eq registry db g k meta hl hne rest hnd2 hmr
      cases he : export_station_to_json registry db g a with
      | none => simp [List.filterMap_cons, he, ih]
      | some s =>
        have hs : s.station_key = a := export_station_key he
        simp [List.filterMap_cons, he, List.filter_cons, hs, hak, ih]

/-- Counterexample to C9: the store holds a row for station key `"ghost"`,
which is absent from the `STATIONS` registry, and the export job emits no
snapshot at all for it. -/
theorem export_skips_unregistered_store_key :
    "ghost" ∈ list_station_keys [⟨"ghost", "X", "EA", 0, 1⟩] ∧
    export_all_stations STATIONS [⟨"ghost", "X", "EA", 0, 1⟩]
        "2026-02-10T00:00:00+00:00" = [] :=
  ⟨by decide, by decide⟩

/-- C9 amended.  For every distinct station key present in the store that is
also present in the `STATIONS` registry, the export job emits exactly one
snapshot for that key, carrying the key, the registered name and source, the
generation instant, and the station's `(ts_utc, value)` rows sorted ascending
by `ts_utc`. -/
theorem export_emits_registered_snapshots (registry : Registry) (db : Store)
    (g k : String) (meta : Station)
    (hk : k ∈ list_station_keys db)
    (hl : List.lookup k registry = some meta) :
    (export_all_stations registry db g).filter (fun s => s.station_key == k)
      = [⟨k, meta.name, meta.source, g, query_station_rows db k⟩] ∧
    List.Sorted relZ (query_station_rows db k) := by
  have hex : ∃ r ∈ db, r.station_key = k := mem_list_station_keys.mp hk
  constructor
  · exact export_filter_eq registry db g k meta hl
      (query_station_rows_ne_nil hex) (list_station_keys db)
      (List.nodup_dedup _) hk
  · exact List.sorted_insertionSort relZ _

/-- Witness for C9 (amended): a two-row Chester store exports exactly one
Chester snapshot with its rows sorted ascending. -/
theorem export_emits_registered_snapshots_witness :
    (export_all_stations STATIONS
        [⟨"chester", "067033_TG_148", "EA", 1717200900, 3⟩,
         ⟨"chester", "067033_TG_148", "EA", 1717200000, 1⟩]
        "2026-02-10T00:00:00+00:00").filter
          (fun s => s.station_key == "chester")
      = [⟨"chester", "Chester", "EA", "2026-02-10T00:00:00+00:00",
          query_station_rows
            [⟨"chester", "067033_TG_148", "EA", 1717200900, 3⟩,
             ⟨"chester", "067033_TG_148", "EA", 1717200000, 1⟩] "chester"⟩] ∧
    List.Sorted relZ (query_station_rows
        [⟨"chester", "067033_TG_148", "EA", 1717200900, 3⟩,
         ⟨"chester", "067033_TG_148", "EA", 1717200000, 1⟩] "chester") :=
  export_emits_registered_snapshots STATIONS _ "2026-02-10T00:00:00+00:00"
    "chester" chesterStation (by decide) (by decide)

end ThamesRiver
